import Mathlib

/-!
Verification of the gns3-gui excerpt (gns3/appliance_manager.py, gns3/controller.py,
gns3/link.py, gns3/node.py, gns3/project.py) against its natural-language
specification.

The Python code is shallowly embedded: Python/JSON values become the inductive
type `Val`, Python dicts become association lists with string keys (first match
wins, insertion preserves position, assignment of a fresh key appends — matching
CPython dict semantics for the operations used here), fallible code returns
`Except PyErr`, and side effects on collaborator objects (Qt signal emissions,
mutations of ports/nodes owned by other components) are recorded as explicit
event lists in the order the Python statements execute.
-/

set_option maxRecDepth 100000

/-- Python exceptions that the embedded code can raise. -/
inductive PyErr where
  | keyError
  | typeError
  | attributeError
  deriving Repr, DecidableEq

/-- A Python/JSON value: None, bool, int, str, list or dict.
(Floats do not occur in any computation verified here; numeric payloads that
are only moved around, such as `zoom`, are representable as `num`.) -/
inductive Val where
  | null
  | bool (b : Bool)
  | num (n : Int)
  | str (s : String)
  | list (xs : List Val)
  | dict (d : List (String × Val))
  deriving Repr

mutual

/-- Structural equality test on values, embedding Python `==` / `!=` checks.
(Python dict equality is order-insensitive; this order-sensitive version is
only used in places where the surrounding claim does not depend on the
difference, namely value-unchanged guards before overwriting a key.) -/
def Val.beq : Val → Val → Bool
  | .null, .null => true
  | .bool a, .bool b => a == b
  | .num a, .num b => a == b
  | .str a, .str b => a == b
  | .list xs, .list ys => Val.beqL xs ys
  | .dict xs, .dict ys => Val.beqD xs ys
  | _, _ => false

def Val.beqL : List Val → List Val → Bool
  | [], [] => true
  | x :: xs, y :: ys => Val.beq x y && Val.beqL xs ys
  | _, _ => false

def Val.beqD : List (String × Val) → List (String × Val) → Bool
  | [], [] => true
  | (k, v) :: xs, (l, w) :: ys => k == l && Val.beq v w && Val.beqD xs ys
  | _, _ => false

end

/-- Python truthiness of a value (`if self._link_id:` and similar). -/
def Val.truthy : Val → Bool
  | .null => false
  | .bool b => b
  | .num n => n != 0
  | .str s => !(s = "")
  | .list xs => !xs.isEmpty
  | .dict d => !d.isEmpty

/-- A Python dict with string keys, as an association list. -/
abbrev Dict := List (String × Val)

/-- Python `k in d` on a dict. -/
def Dict.hasKey : Dict → String → Bool
  | [], _ => false
  | (k', _) :: rest, k => k' == k || Dict.hasKey rest k

/-- Python `d[k]` returning `none` when the key is missing (`d.get(k)` / guarded `d[k]`). -/
def Dict.find? (d : Dict) (k : String) : Option Val :=
  match d with
  | [] => none
  | (k', v) :: rest => if k' == k then some v else Dict.find? rest k

/-- Python `d.get(k, default)`. -/
def Dict.getD (d : Dict) (k : String) (v₀ : Val) : Val :=
  (Dict.find? d k).getD v₀

/-- Python `d[k] = v`: overwrite in place if the key exists, else append (CPython
dicts preserve insertion order and keep the position of overwritten keys). -/
def Dict.set (d : Dict) (k : String) (v : Val) : Dict :=
  match d with
  | [] => [(k, v)]
  | (k', v') :: rest => if k' == k then (k', v) :: rest else (k', v') :: Dict.set rest k v

/-- Python `del d[k]` (also used for `d.pop(k)` discarding the result). -/
def Dict.erase : Dict → String → Dict
  | [], _ => []
  | (k', v) :: rest, k => if k' == k then Dict.erase rest k else (k', v) :: Dict.erase rest k

/-- Python `d.update(e)`: assign every key/value pair of `e` into `d` in order. -/
def Dict.update (d e : Dict) : Dict :=
  e.foldl (fun acc kv => Dict.set acc kv.1 kv.2) d

/-- Python `list(d)` / `d.keys()` as a list. -/
def Dict.keysOf (d : Dict) : List String :=
  d.map (·.1)

theorem Dict.find?_eq_none_of_hasKey_eq_false {d : Dict} {k : String}
    (h : Dict.hasKey d k = false) : Dict.find? d k = none := by
  induction d with
  | nil => rfl
  | cons p rest ih =>
    obtain ⟨k', v⟩ := p
    simp [Dict.hasKey] at h
    simp [Dict.find?, h.1, ih h.2]

theorem Dict.exists_find?_of_hasKey {d : Dict} {k : String}
    (h : Dict.hasKey d k = true) : ∃ v, Dict.find? d k = some v := by
  induction d with
  | nil => simp [Dict.hasKey] at h
  | cons p rest ih =>
    obtain ⟨k', v⟩ := p
    by_cases hk : k' = k
    · exact ⟨v, by simp [Dict.find?, hk]⟩
    · simp [Dict.hasKey, hk] at h
      obtain ⟨w, hw⟩ := ih h
      exact ⟨w, by simp [Dict.find?, hk, hw]⟩

theorem Dict.find?_set_self (d : Dict) (k : String) (v : Val) :
    Dict.find? (Dict.set d k v) k = some v := by
  induction d with
  | nil => simp [Dict.set, Dict.find?]
  | cons p rest ih =>
    obtain ⟨k', w⟩ := p
    by_cases hk : k' = k
    · simp [Dict.set, Dict.find?, hk]
    · simp [Dict.set, Dict.find?, hk, ih]

theorem Dict.find?_set_ne (d : Dict) {k k' : String} (v : Val) (h : k ≠ k') :
    Dict.find? (Dict.set d k v) k' = Dict.find? d k' := by
  induction d with
  | nil => simp [Dict.set, Dict.find?, h]
  | cons p rest ih =>
    obtain ⟨k₀, w⟩ := p
    by_cases hk : k₀ = k
    · simp [Dict.set, Dict.find?, hk, h, Ne.symm h]
    · by_cases hk' : k₀ = k'
      · simp [Dict.set, Dict.find?, hk, hk', Ne.symm h]
      · simp [Dict.set, Dict.find?, hk, hk', ih]

theorem Dict.find?_erase_ne (d : Dict) {k k' : String} (h : k ≠ k') :
    Dict.find? (Dict.erase d k) k' = Dict.find? d k' := by
  induction d with
  | nil => rfl
  | cons p rest ih =>
    obtain ⟨k₀, w⟩ := p
    by_cases hk : k₀ = k
    · have : k₀ ≠ k' := by rw [hk]; exact h
      simp [Dict.erase, Dict.find?, hk, this, h, ih]
    · by_cases hk' : k₀ = k'
      · simp [Dict.erase, Dict.find?, hk, hk', Ne.symm h]
      · simp [Dict.erase, Dict.find?, hk, hk', ih]

theorem Dict.hasKey_erase_self (d : Dict) (k : String) :
    Dict.hasKey (Dict.erase d k) k = false := by
  induction d with
  | nil => rfl
  | cons p rest ih =>
    obtain ⟨k₀, w⟩ := p
    by_cases hk : k₀ = k
    · simp [Dict.erase, hk, ih]
    · simp [Dict.erase, Dict.hasKey, hk, ih]

theorem Dict.hasKey_erase_ne (d : Dict) {k k' : String} (h : k ≠ k') :
    Dict.hasKey (Dict.erase d k) k' = Dict.hasKey d k' := by
  induction d with
  | nil => rfl
  | cons p rest ih =>
    obtain ⟨k₀, w⟩ := p
    by_cases hk : k₀ = k
    · have : k₀ ≠ k' := by rw [hk]; exact h
      simp [Dict.erase, Dict.hasKey, hk, this, h, ih]
    · by_cases hk' : k₀ = k'
      · simp [Dict.erase, Dict.hasKey, hk, hk', Ne.symm h]
      · simp [Dict.erase, Dict.hasKey, hk, hk', ih]

theorem Dict.hasKey_set (d : Dict) (k k' : String) (v : Val) :
    Dict.hasKey (Dict.set d k v) k' = (k == k' || Dict.hasKey d k') := by
  induction d with
  | nil => simp [Dict.set, Dict.hasKey]
  | cons p rest ih =>
    obtain ⟨k₀, w⟩ := p
    by_cases hk : k₀ = k
    · simp [Dict.set, Dict.hasKey, hk]
    · simp only [Dict.set, Dict.hasKey, hk, if_neg, beq_iff_eq, if_false, ih]
      cases hkk : (k == k') <;> cases hk0 : (k₀ == k') <;> simp_all

theorem Dict.hasKey_update (d e : Dict) (k : String) :
    Dict.hasKey (Dict.update d e) k = (Dict.hasKey d k || Dict.hasKey e k) := by
  induction e generalizing d with
  | nil => simp [Dict.update, Dict.hasKey]
  | cons p rest ih =>
    obtain ⟨k₀, w⟩ := p
    simp only [Dict.update, List.foldl] at ih ⊢
    rw [ih, Dict.hasKey_set]
    simp only [Dict.hasKey]
    cases h0 : (k₀ == k) <;> cases h1 : Dict.hasKey d k <;> cases h2 : Dict.hasKey rest k <;> simp_all

theorem Dict.find?_update_of_not_mem (d e : Dict) (k : String)
    (h : Dict.hasKey e k = false) :
    Dict.find? (Dict.update d e) k = Dict.find? d k := by
  induction e generalizing d with
  | nil => rfl
  | cons p rest ih =>
    obtain ⟨k₀, w⟩ := p
    simp [Dict.hasKey] at h
    simp only [Dict.update, List.foldl] at ih ⊢
    rw [ih _ h.2, Dict.find?_set_ne _ _ h.1]

/-! ## Bytes, UTF-8 and MD5 (hashlib.md5 / uuid.uuid3 as used by the code) -/

/-- The mask for 32-bit arithmetic, 2^32 - 1. -/
def mask32 : Nat := 4294967295

/-- Left rotation of a 32-bit word. -/
def rotl32 (x s : Nat) : Nat :=
  ((x <<< s) ||| (x >>> (32 - s))) &&& mask32

/-- Bitwise complement of a 32-bit word. -/
def notc32 (x : Nat) : Nat := x ^^^ mask32

/-- The 64 MD5 sine-derived constants, floor(2^32 * abs(sin(i+1))). -/
def md5K : List Nat :=
  [3614090360, 3905402710, 606105819, 3250441966, 4118548399, 1200080426, 2821735955, 4249261313,
   1770035416, 2336552879, 4294925233, 2304563134, 1804603682, 4254626195, 2792965006, 1236535329,
   4129170786, 3225465664, 643717713, 3921069994, 3593408605, 38016083, 3634488961, 3889429448,
   568446438, 3275163606, 4107603335, 1163531501, 2850285829, 4243563512, 1735328473, 2368359562,
   4294588738, 2272392833, 1839030562, 4259657740, 2763975236, 1272893353, 4139469664, 3200236656,
   681279174, 3936430074, 3572445317, 76029189, 3654602809, 3873151461, 530742520, 3299628645,
   4096336452, 1126891415, 2878612391, 4237533241, 1700485571, 2399980690, 4293915773, 2240044497,
   1873313359, 4264355552, 2734768916, 1309151649, 4149444226, 3174756917, 718787259, 3951481745]

/-- The per-round MD5 shift amounts. -/
def md5S : List Nat :=
  [7, 12, 17, 22, 7, 12, 17, 22, 7, 12, 17, 22, 7, 12, 17, 22,
   5, 9, 14, 20, 5, 9, 14, 20, 5, 9, 14, 20, 5, 9, 14, 20,
   4, 11, 16, 23, 4, 11, 16, 23, 4, 11, 16, 23, 4, 11, 16, 23,
   6, 10, 15, 21, 6, 10, 15, 21, 6, 10, 15, 21, 6, 10, 15, 21]

/-- A 32-bit word as four little-endian bytes. -/
def toLE4 (w : Nat) : List Nat :=
  [w % 256, w / 256 % 256, w / 65536 % 256, w / 16777216 % 256]

/-- Four little-endian bytes as a 32-bit word. -/
def fromLE4 : List Nat → Nat
  | [a, b, c, d] => a + 256 * b + 65536 * c + 16777216 * d
  | _ => 0

/-- A 64-bit word as eight little-endian bytes. -/
def toLE8 (w : Nat) : List Nat :=
  toLE4 (w % 4294967296) ++ toLE4 (w / 4294967296 % 4294967296)

/-- MD5 padding: 0x80, zeros to 56 mod 64, then the 64-bit little-endian bit length. -/
def md5Pad (msg : List Nat) : List Nat :=
  let n := msg.length
  let k := (119 - n % 64) % 64
  msg ++ [128] ++ List.replicate k 0 ++ toLE8 (n * 8 % 18446744073709551616)

/-- Split a byte list into 64-byte blocks (fuel-based so that it reduces in the kernel). -/
def toBlocksAux : Nat → List Nat → List (List Nat)
  | 0, _ => []
  | _, [] => []
  | fuel + 1, l => l.take 64 :: toBlocksAux fuel (l.drop 64)

def toBlocks (l : List Nat) : List (List Nat) :=
  toBlocksAux l.length l

/-- One of the 64 MD5 rounds. -/
def md5Round (M : Nat → Nat) (st : Nat × Nat × Nat × Nat) (i : Nat) : Nat × Nat × Nat × Nat :=
  let (A, B, C, D) := st
  let (F, g) :=
    if i < 16 then ((B &&& C) ||| (notc32 B &&& D), i)
    else if i < 32 then ((D &&& B) ||| (notc32 D &&& C), (5 * i + 1) % 16)
    else if i < 48 then (B ^^^ C ^^^ D, (3 * i + 5) % 16)
    else (C ^^^ (B ||| notc32 D), (7 * i) % 16)
  let F2 := (F + A + md5K.getD i 0 + M g) &&& mask32
  (D, (B + rotl32 F2 (md5S.getD i 0)) &&& mask32, B, C)

/-- Process one 64-byte block. -/
def md5Block (st : Nat × Nat × Nat × Nat) (block : List Nat) : Nat × Nat × Nat × Nat :=
  let M : Nat → Nat := fun g => fromLE4 ((block.drop (4 * g)).take 4)
  let (a, b, c, d) := (List.range 64).foldl (md5Round M) st
  let (A, B, C, D) := st
  ((A + a) &&& mask32, (B + b) &&& mask32, (C + c) &&& mask32, (D + d) &&& mask32)

/-- The 16-byte MD5 digest of a byte string (hashlib.md5(msg).digest()). -/
def md5Bytes (msg : List Nat) : List Nat :=
  let (a, b, c, d) := (toBlocks (md5Pad msg)).foldl md5Block
    (1732584193, 4023233417, 2562383102, 271733878)
  toLE4 a ++ toLE4 b ++ toLE4 c ++ toLE4 d

/-- A lowercase hex digit. -/
def hexDigit (n : Nat) : Char :=
  if n < 10 then Char.ofNat (48 + n) else Char.ofNat (87 + n)

/-- A byte as two lowercase hex characters. -/
def hexByte (b : Nat) : String :=
  String.mk [hexDigit (b / 16), hexDigit (b % 16)]

/-- hashlib.md5(msg).hexdigest(). -/
def md5HexOfBytes (msg : List Nat) : String :=
  String.join ((md5Bytes msg).map hexByte)

/-- UTF-8 encoding of one character. -/
def encodeChar (c : Char) : List Nat :=
  let n := c.toNat
  if n < 128 then [n]
  else if n < 2048 then [192 ||| (n >>> 6), 128 ||| (n &&& 63)]
  else if n < 65536 then [224 ||| (n >>> 12), 128 ||| ((n >>> 6) &&& 63), 128 ||| (n &&& 63)]
  else [240 ||| (n >>> 18), 128 ||| ((n >>> 12) &&& 63), 128 ||| ((n >>> 6) &&& 63), 128 ||| (n &&& 63)]

/-- Python's str.encode() (UTF-8). -/
def utf8Encode (s : String) : List Nat :=
  (s.data.map encodeChar).flatten

/-- md5 hexdigest of the UTF-8 encoding of a string. -/
def md5Hex (s : String) : String :=
  md5HexOfBytes (utf8Encode s)

/-- The 16 bytes of uuid.NAMESPACE_DNS. -/
def namespaceDNSBytes : List Nat :=
  [107, 167, 184, 16, 157, 173, 17, 209, 128, 180, 0, 192, 79, 212, 48, 200]

/-- Render 16 UUID bytes in 8-4-4-4-12 form. -/
def uuidFormat (b : List Nat) : String :=
  String.join ((b.take 4).map hexByte) ++ "-" ++
  String.join (((b.drop 4).take 2).map hexByte) ++ "-" ++
  String.join (((b.drop 6).take 2).map hexByte) ++ "-" ++
  String.join (((b.drop 8).take 2).map hexByte) ++ "-" ++
  String.join ((b.drop 10).map hexByte)

/-- uuid.uuid3(namespace, name): MD5 of namespace bytes ++ UTF-8 name, with
version 3 and RFC 4122 variant bits set. -/
def uuid3 (nsBytes : List Nat) (name : String) : String :=
  let d := md5Bytes (nsBytes ++ utf8Encode name)
  let b := (d.take 6) ++ [d.getD 6 0 % 16 + 48] ++ [d.getD 7 0] ++
           [d.getD 8 0 % 64 + 128] ++ (d.drop 9)
  uuidFormat b

/-! ## Controller (gns3/controller.py) -/

/-- True when the first list occurs as a contiguous substring of the second
(Python `in` on strings). -/
def listHasSub (n : List Char) : List Char → Bool
  | [] => n.isEmpty
  | c :: t => decide (n = (c :: t).take n.length) || listHasSub n t

/-- Python `sub in s` on strings. -/
def strHasSub (sub s : String) : Bool :=
  listHasSub sub.data s.data

/-- Does the string start with a slash? (kernel-reducible replacement for
String.startsWith). -/
def strHeadSlash (s : String) : Bool :=
  match s.data with
  | [] => false
  | c :: _ => c == '/'

/-- Does the string end with a slash? (kernel-reducible replacement for
String.endsWith). -/
def strLastSlash (s : String) : Bool :=
  match s.data.getLast? with
  | some c => c == '/'
  | none => false

/-- os.path.join for the two-argument uses in the code (the second component
is a plain file name here; the absolute-path case is kept for fidelity). -/
def pathJoin (a b : String) : String :=
  if strHeadSlash b then b
  else if a = "" then b
  else if strLastSlash a then a ++ b
  else a ++ "/" ++ b

/-- Controller.getStaticCachedPath: md5-hash the URL, pick ".svg" or ".png" by
substring test, and join onto the cache directory. -/
def Controller.getStaticCachedPath (cache_directory url : String) : String :=
  let m := md5Hex url
  let extension := if strHasSub ".svg" url then ".svg" else ".png"
  pathJoin cache_directory (m ++ extension)

/-- Modelled from the spec: the cache is "a flat on-disk file cache keyed by URL
hash" — the cached path is the cache directory joined with the MD5 hex digest of
the UTF-8 encoded URL, extended with ".svg" when ".svg" occurs in the URL and
".png" otherwise. Written from the spec's words for comparison with
`Controller.getStaticCachedPath`, which is translated from the source. -/
def spec_staticCachedPath (cache_directory url : String) : String :=
  pathJoin cache_directory
    (md5HexOfBytes (utf8Encode url) ++ (if strHasSub ".svg" url then ".svg" else ".png"))

/-- Observable effects of Controller._versionGetSlot. -/
inductive CtrlEvent where
  | connectionFailedEmit
  | showErrorDialog
  | scheduleVersionRetry (ms : Nat) (showProgress : Bool)
  | rejectErrorDialog
  deriving Repr, DecidableEq

/-- The controller fields touched by _versionGetSlot. -/
structure ControllerState where
  _connected : Bool
  _connecting : Bool
  _first_error : Bool
  _display_error : Bool
  _error_dialog : Bool
  deriving Repr, DecidableEq

/-- Controller._versionGetSlot: handle the reply to GET /version.  On error,
when it is the first error of a streak: stop "connecting", emit
connection_failed_signal and possibly show a modal error dialog; in every error
case schedule one retry of GET /version in 5000 ms (the showProgress argument is
captured before _first_error is cleared) and clear _first_error.  On success
reset _first_error and dismiss any dialog. -/
def Controller.versionGetSlot (s : ControllerState) (result : Dict) (error : Bool) :
    ControllerState × List CtrlEvent :=
  if error then
    let (s₁, evs₁) :=
      if s._first_error then
        let s' := { s with _connecting := false }
        if Dict.hasKey result "message" && s._display_error then
          ({ s' with _error_dialog := true },
           [CtrlEvent.connectionFailedEmit, CtrlEvent.showErrorDialog])
        else (s', [CtrlEvent.connectionFailedEmit])
      else (s, [])
    let evs₂ := evs₁ ++ [CtrlEvent.scheduleVersionRetry 5000 s₁._first_error]
    ({ s₁ with _first_error := false }, evs₂)
  else
    if s._error_dialog then
      ({ s with _first_error := true, _error_dialog := false }, [CtrlEvent.rejectErrorDialog])
    else
      ({ s with _first_error := true }, [])

/-- Is this event a scheduled /version retry? -/
def CtrlEvent.isRetry : CtrlEvent → Bool
  | .scheduleVersionRetry _ _ => true
  | _ => false

/-! ## Appliance and ApplianceManager (gns3/appliance_manager.py) -/

/-- The old-GUI-category-to-text table ID_TO_CATEGORY. -/
def idToCategory (n : Int) : Option String :=
  if n = 3 then some "firewall"
  else if n = 2 then some "guest"
  else if n = 1 then some "switch"
  else if n = 0 then some "router"
  else none

/-- An appliance: id, template data, builtin flag. -/
structure Appliance where
  _id : Val
  _data : Dict
  _builtin : Bool
  deriving Repr

/-- The statement `if "appliance_id" in self._data: del self._data["appliance_id"]`. -/
def applianceStripId (d : Dict) : Dict :=
  if Dict.hasKey d "appliance_id" then Dict.erase d "appliance_id" else d

/-- The pre-2.1 migration: pop "linked_base" and, when "linked_clone" is not
already present, store the popped value under "linked_clone". -/
def applianceMigrateLinkedBase (d : Dict) : Dict :=
  if Dict.hasKey d "linked_base" then
    let linked_base := Dict.getD d "linked_base" Val.null
    let d' := Dict.erase d "linked_base"
    if Dict.hasKey d' "linked_clone" then d' else Dict.set d' "linked_clone" linked_base
  else d

/-- Appliance.__init__.  `appliance_id` is the Python argument (`Val.null` for
None; a uuid.UUID argument is represented by its string form, which is what
`str(appliance_id)` produces); `fresh` is the uuid4 the constructor would
generate for a None id.  Raises KeyError when "node_type" is missing. -/
def Appliance.init (appliance_id : Val) (fresh : String) (data : Dict) (builtin : Bool) :
    Except PyErr Appliance :=
  let i := match appliance_id with
    | .null => Val.str fresh
    | v => v
  let d₂ := applianceMigrateLinkedBase (applianceStripId data)
  match Dict.find? data "node_type" with
  | none => .error .keyError
  | some nt =>
    let d₃ := if Val.beq nt (Val.str "iou") && Dict.hasKey data "image" then Dict.erase d₂ "image" else d₂
    .ok { _id := i, _data := d₃, _builtin := builtin }

/-- Appliance.__json__.  The category is translated through ID_TO_CATEGORY when
possible; a missing "category", "node_type" or "name" raises KeyError (for a
missing "category" the except-branch re-raises). -/
def Appliance.json (a : Appliance) : Except PyErr Dict :=
  match Dict.find? a._data "category" with
  | none => .error .keyError
  | some cv =>
    let category := match cv with
      | .num n => match idToCategory n with
        | some s => Val.str s
        | none => cv
      | _ => cv
    match Dict.find? a._data "node_type", Dict.find? a._data "name" with
    | some nt, some nm =>
        .ok [("appliance_id", a._id),
             ("node_type", nt),
             ("name", nm),
             ("default_name_format", Dict.getD a._data "default_name_format" (Val.str "\x7bname\x7d-\x7b0\x7d")),
             ("category", category),
             ("symbol", Dict.getD a._data "symbol" (Val.str ":/symbols/computer.svg")),
             ("compute_id", Dict.getD a._data "server" Val.null),
             ("builtin", Val.bool a._builtin),
             ("platform", Dict.getD a._data "platform" Val.null)]
    | _, _ => .error .keyError

/-- A Python dict keyed by appliance ids (which are `Val`s: strings in every
reachable case).  First match wins, overwriting keeps position, fresh keys
append. -/
abbrev VDict := List (Val × Val)

def VDict.find? (d : VDict) (k : Val) : Option Val :=
  match d with
  | [] => none
  | (k', v) :: rest => if Val.beq k' k then some v else VDict.find? rest k

def VDict.set (d : VDict) (k v : Val) : VDict :=
  match d with
  | [] => [(k, v)]
  | (k', v') :: rest => if Val.beq k' k then (k', v) :: rest else (k', v') :: VDict.set rest k v

/-- The appliance store: a dict in the normal course of events, but
_controllerDisconnectedSlot reassigns it to a plain Python list. -/
inductive Store where
  | sdict (d : VDict)
  | slist (l : List Val)
  deriving Repr

/-- The assignment `self._appliances[key] = value`.  On a list store this is
`list[str] = ...`, a TypeError (integer indices, which never occur as
appliance ids here, are not modelled). -/
def Store.setItem (st : Store) (k v : Val) : Except PyErr Store :=
  match st with
  | .sdict d => .ok (.sdict (VDict.set d k v))
  | .slist _ => .error .typeError

/-- The lookup `self._appliances[key]`. -/
def Store.getItem (st : Store) (k : Val) : Except PyErr Val :=
  match st with
  | .sdict d =>
    match VDict.find? d k with
    | some v => .ok v
    | none => .error .keyError
  | .slist _ => .error .typeError

structure ApplianceManager where
  _appliance_templates : List Val
  _appliances : Store
  deriving Repr

inductive MgrEvent where
  | appliancesChangedEmit
  deriving Repr, DecidableEq

/-- ApplianceManager._controllerDisconnectedSlot: clear the template list, set
the appliance store to an empty Python LIST (not a dict), and emit
appliances_changed_signal. -/
def ApplianceManager.controllerDisconnectedSlot (_ : ApplianceManager) :
    ApplianceManager × List MgrEvent :=
  ({ _appliance_templates := [], _appliances := .slist [] }, [MgrEvent.appliancesChangedEmit])

/-- ApplianceManager.getAppliance. -/
def ApplianceManager.getAppliance (m : ApplianceManager) (appliance_id : Val) : Except PyErr Val :=
  Store.getItem m._appliances appliance_id

/-- ApplianceManager.load_settings: take the "settings" entry of the parsed
gns3_controller.conf (the file content is passed in as `conf`). -/
def ApplianceManager.load_settings (conf : Val) : Except PyErr Val :=
  match conf with
  | .dict d =>
    match Dict.find? d "settings" with
    | some s => .ok s
    | none => .error .keyError
  | _ => .error .typeError

/-- The builtin Ethernet switch template passed to `Appliance` in
load_appliances. -/
def builtinSwitchData : Dict :=
  [("node_type", Val.str "ethernet_switch"),
   ("name", Val.str "Ethernet switch"),
   ("category", Val.num 1),
   ("symbol", Val.str ":/symbols/ethernet_switch.svg")]

/-- The lookup `settings.get(section, {}).get(key, [])` followed by iteration: missing
pieces give [], a non-dict section or non-list entry raises on attribute
access / iteration. -/
def sectionList (settings : Dict) (sec key : String) : Except PyErr (List Val) :=
  match Dict.find? settings sec with
  | none => .ok []
  | some (.dict d) =>
    match Dict.find? d key with
    | none => .ok []
    | some (.list xs) => .ok xs
    | some _ => .error .typeError
  | some _ => .error .attributeError

/-- One `for vm in settings.get(...)...: vm["node_type"] = nt; vms.append(vm)`
loop of load_appliances. -/
def sectionVms (settings : Dict) (sec key nt : String) : Except PyErr (List Dict) := do
  let xs ← sectionList settings sec key
  xs.mapM (fun v =>
    match v with
    | .dict d => .ok (Dict.set d "node_type" (Val.str nt))
    | _ => .error PyErr.typeError)

/-- The vm lists gathered by load_appliances, in source order. -/
def collectVms (settings : Dict) : Except PyErr (List Dict) := do
  let a ← sectionVms settings "Qemu" "vms" "qemu"
  let b ← sectionVms settings "IOU" "devices" "iou"
  let c ← sectionVms settings "Docker" "containers" "docker"
  let d ← sectionVms settings "Builtin" "cloud_nodes" "cloud"
  let e ← sectionVms settings "Builtin" "ethernet_switches" "ethernet_switch"
  let f ← sectionVms settings "Builtin" "ethernet_hubs" "ethernet_hub"
  let g ← sectionVms settings "Dynamips" "routers" "dynamips"
  let h ← sectionVms settings "VMware" "vms" "vmware"
  let i ← sectionVms settings "VirtualBox" "vms" "virtualbox"
  let j ← sectionVms settings "VPCS" "nodes" "vpcs"
  .ok (a ++ b ++ c ++ d ++ e ++ f ++ g ++ h ++ i ++ j)

/-- The per-vm body of the final load_appliances loop.  `fresh` is the uuid4
generated for this iteration (Python evaluates it eagerly in `setdefault`).
The try/except skips this vm on KeyError; a TypeError from the store
assignment propagates. -/
def ApplianceManager.processVm (fresh : String) (store : Store) (vm : Dict) :
    Except PyErr Store :=
  let vm₁ := (Dict.keysOf vm).foldl (fun acc prop =>
    if prop = "enable_remote_console" || prop = "use_ubridge" then Dict.erase acc prop else acc) vm
  let vm₂ :=
    if Dict.hasKey vm₁ "default_symbol" || Dict.hasKey vm₁ "hover_symbol" then
      let a := Dict.erase (Dict.erase vm₁ "default_symbol") "hover_symbol"
      if Dict.hasKey a "symbol" then a else Dict.set a "symbol" (Val.str ":/symbols/computer.svg")
    else vm₁
  let vm₃ := if Dict.hasKey vm₂ "appliance_id" then vm₂ else Dict.set vm₂ "appliance_id" (Val.str fresh)
  let attempt : Except PyErr Store := do
    let app ← Appliance.init (Dict.getD vm₃ "appliance_id" Val.null) fresh vm₃ false
    let _ ← Appliance.json app
    let j ← Appliance.json app
    Store.setItem store app._id (Val.dict j)
  match attempt with
  | .error .keyError => .ok store
  | r => r

/-- Fold processVm over the vm list, consuming one fresh uuid per vm. -/
def ApplianceManager.processVms (fresh : Nat → String) : Nat → Store → List Dict → Except PyErr Store
  | _, store, [] => .ok store
  | i, store, vm :: rest => do
    let store' ← ApplianceManager.processVm (fresh i) store vm
    ApplianceManager.processVms fresh (i + 1) store' rest

/-- ApplianceManager.load_appliances: read the settings file (`conf` is its
parsed content), store the builtin Ethernet switch appliance under its
uuid3-derived id, then convert every configured vm into an appliance record
keyed by its appliance_id. -/
def ApplianceManager.load_appliances (m : ApplianceManager) (conf : Val) (fresh : Nat → String) :
    Except PyErr ApplianceManager := do
  let settings ← ApplianceManager.load_settings conf
  let app ← Appliance.init (Val.str (uuid3 namespaceDNSBytes "ethernet_switch")) "" builtinSwitchData true
  let j ← Appliance.json app
  let store ← Store.setItem m._appliances app._id (Val.dict j)
  match settings with
  | .dict sd => do
    let vms ← collectVms sd
    let store' ← ApplianceManager.processVms fresh 0 store vms
    .ok { m with _appliances := store' }
  | _ => .error .attributeError

/-! ## Node (gns3/node.py, with the BaseNode/Port pieces that live outside src/
modelled from the spec) -/

/-- Modelled from the spec: the node status constants Node.started /
Node.stopped / Node.suspended live on BaseNode (gns3/base_node.py, not in
src/); `created` is the initial state. -/
inductive NodeStatus where
  | created
  | started
  | stopped
  | suspended
  deriving Repr, DecidableEq

/-- Modelled from the spec: SerialPort and EthernetPort (gns3/ports/*.py, not
in src/) are the two port classes constructed in _updatePorts. -/
inductive PortKind where
  | serial
  | ethernet
  deriving Repr, DecidableEq

/-- Modelled from the spec: a Port (gns3/ports/port.py, not in src/) mirrors
name, short name, adapter/port numbers, data link types and status, with
setters that store the given value, and an optional label whose dump() is the
stored value. -/
structure Port where
  kind : PortKind
  name : Val
  short_name : Val
  adapter_number : Val
  port_number : Val
  data_link_types : Val
  status : NodeStatus
  label : Option Val
  deriving Repr

/-- Modelled from the spec: SerialPort(name) / EthernetPort(name) store the
name; the other mirrored fields start unset. -/
def Port.mkNew (kind : PortKind) (name : Val) : Port :=
  { kind := kind, name := name, short_name := Val.null, adapter_number := Val.null,
    port_number := Val.null, data_link_types := Val.null, status := NodeStatus.created,
    label := none }

/-- A Node: server id mirror, settings map and port list.  `nid` is the local
integer id from BaseNode (modelled from the spec; base_node.py is not in
src/). -/
structure Node where
  nid : Nat
  _node_id : Val
  _node_directory : Val
  _command_line : Val
  _settings : Dict
  _ports : List Port
  _status : NodeStatus
  deriving Repr

/-- Node.node_id. -/
def Node.node_id (n : Node) : Val := n._node_id

/-- Node.setName: stores into settings["name"]. -/
def Node.setName (n : Node) (name : Val) : Node :=
  { n with _settings := Dict.set n._settings "name" name }

/-- Modelled from the spec: BaseNode.setStatus stores the status value
(base_node.py not in src/). -/
def Node.setStatus (n : Node) (st : NodeStatus) : Node :=
  { n with _status := st }

/-- Python `d[k]` raising KeyError when missing. -/
def dictItem (d : Dict) (k : String) : Except PyErr Val :=
  match Dict.find? d k with
  | some v => .ok v
  | none => .error .keyError

/-- The port-identity test of _updatePorts, with Python's short-circuit
evaluation of the three subscript lookups. -/
def portMatches (op : Port) (pd : Dict) : Except PyErr Bool := do
  let a ← dictItem pd "adapter_number"
  if !Val.beq op.adapter_number a then .ok false
  else do
    let pn ← dictItem pd "port_number"
    if !Val.beq op.port_number pn then .ok false
    else do
      let nm ← dictItem pd "name"
      .ok (Val.beq op.name nm)

/-- Find (and remove) the first old port matching the port dict, keeping the
order of the remaining old ports. -/
def findOldPort : List Port → Dict → Except PyErr (Option (Port × List Port))
  | [], _ => .ok none
  | op :: rest, pd => do
    let m ← portMatches op pd
    if m then .ok (some (op, rest))
    else do
      let r ← findOldPort rest pd
      .ok (r.map (fun pr => (pr.1, op :: pr.2)))

/-- The setter block at the end of each _updatePorts iteration. -/
def applyPortSetters (p : Port) (pd : Dict) (st : NodeStatus) : Except PyErr Port := do
  let sn ← dictItem pd "short_name"
  let an ← dictItem pd "adapter_number"
  let pn ← dictItem pd "port_number"
  let dlt ← dictItem pd "data_link_types"
  .ok { p with short_name := sn, adapter_number := an, port_number := pn,
               data_link_types := dlt, status := st }

/-- The port construction branch: dispatch on port["link_type"]. -/
def newPortFromDict (pd : Dict) : Except PyErr Port := do
  let lt ← dictItem pd "link_type"
  let nm ← dictItem pd "name"
  .ok (if Val.beq lt (Val.str "serial") then Port.mkNew .serial nm else Port.mkNew .ethernet nm)

/-- The loop of Node._updatePorts, accumulating the rebuilt port list. -/
def updatePortsGo (st : NodeStatus) : List Port → List Port → List Val → Except PyErr (List Port)
  | _, acc, [] => .ok acc.reverse
  | old, acc, p :: rest =>
    match p with
    | .dict pd => do
      let found ← findOldPort old pd
      match found with
      | some (op, old') => do
        let np ← applyPortSetters op pd st
        updatePortsGo st old' (np :: acc) rest
      | none => do
        let np₀ ← newPortFromDict pd
        let np ← applyPortSetters np₀ pd st
        updatePortsGo st old (np :: acc) rest
    | _ => .error .typeError

/-- Node._updatePorts: record the raw list under settings["ports"] and rebuild
the port list, reusing old ports that match on adapter number, port number and
name. -/
def Node.updatePorts (n : Node) (ports : List Val) : Except PyErr Node := do
  let n := { n with _settings := Dict.set n._settings "ports" (Val.list ports) }
  let newPorts ← updatePortsGo n._status n._ports [] ports
  .ok { n with _ports := newPorts }

/-- The settings updates performed by the `result["properties"]` loop (in
order): only keys already present in settings, and only when the value
differs. -/
def applyProps : Dict → Dict → Dict
  | [], st => st
  | kv :: rest, st =>
    applyProps rest
      (if Dict.hasKey st kv.1 && !Val.beq (Dict.getD st kv.1 Val.null) kv.2
       then Dict.set st kv.1 kv.2 else st)

/-- The trailing "common element" loop of _parseResponse over the fixed key
list (in order), copying present keys from the (merged) result into
settings. -/
def applyCommonKeys : List String → Dict → Dict → Dict
  | [], st, _ => st
  | key :: rest, st, res =>
    match Dict.find? res key with
    | some v => applyCommonKeys rest (Dict.set st key v) res
    | none => applyCommonKeys rest st res

def commonNodeKeys : List String :=
  ["x", "y", "z", "symbol", "label", "console_host", "console", "console_type"]

/-- The first, unconditional block of Node._parseResponse: mirror node_id,
name, command_line, node_directory and the three recognised status strings. -/
def Node.updateScalars (n : Node) (result : Dict) : Node :=
  let n := match Dict.find? result "node_id" with
    | some v => { n with _node_id := v }
    | none => n
  let n := match Dict.find? result "name" with
    | some v => Node.setName n v
    | none => n
  let n := match Dict.find? result "command_line" with
    | some v => { n with _command_line := v }
    | none => n
  let n := match Dict.find? result "node_directory" with
    | some v => { n with _node_directory := v }
    | none => n
  match Dict.find? result "status" with
  | some v =>
    if Val.beq v (Val.str "started") then Node.setStatus n .started
    else if Val.beq v (Val.str "stopped") then Node.setStatus n .stopped
    else if Val.beq v (Val.str "suspended") then Node.setStatus n .suspended
    else n
  | none => n

/-- The tail of Node._parseResponse after the ports block: fold
result["properties"] into the settings and into the result itself (deleting
the "properties" key), then copy the common element keys from the merged
result. -/
def Node.parseFinish (n : Node) (result : Dict) : Except PyErr (Node × Dict) :=
  match Dict.find? result "properties" with
  | some (.dict props) =>
    let n' := { n with _settings := applyProps props n._settings }
    let result' := Dict.erase (Dict.update result props) "properties"
    .ok ({ n' with _settings := applyCommonKeys commonNodeKeys n'._settings result' }, result')
  | some _ => .error PyErr.attributeError
  | none =>
    .ok ({ n with _settings := applyCommonKeys commonNodeKeys n._settings result }, result)

/-- Node._parseResponse: copy the server result into the mirrored fields,
rebuild the ports when present, fold result["properties"] into the settings
and the result, then copy the common element keys.  Returns the (possibly
modified) result, as the Python method does. -/
def Node.parseResponse (n : Node) (result : Dict) : Except PyErr (Node × Dict) :=
  let n₁ := Node.updateScalars n result
  match Dict.find? result "ports" with
  | some (.list ports) =>
    match Node.updatePorts n₁ ports with
    | .ok n₂ => Node.parseFinish n₂ result
    | .error e => .error e
  | some _ => .error PyErr.typeError
  | none => Node.parseFinish n₁ result

/-! ## Link (gns3/link.py) -/

/-- Observable effects of Link construction and updates, in Python statement
order: addLink on each endpoint node, the add_link signal, the wiring of each
port (setLinkId/setLink/setDestinationNode/setDestinationPort), and the
updated_link signal. -/
inductive LinkEvent where
  | addLinkOnSourceNode
  | addLinkOnDestinationNode
  | addLinkEmit (id : Nat)
  | wireSourcePort (id : Nat)
  | wireDestinationPort (id : Nat)
  | updatedLinkEmit (id : Nat)
  deriving Repr, DecidableEq

/-- A Link: two endpoint node/port pairs plus mirrored server state. -/
structure Link where
  _id : Nat
  _source_node : Node
  _source_port : Port
  _destination_node : Node
  _destination_port : Port
  _source_label : Option Val
  _destination_label : Option Val
  _link_id : Val
  _capturing : Bool
  _initialized : Bool
  _filters : Val
  _suspend : Val
  _creator : Bool
  _nodes : Val
  deriving Repr

/-- Link.link_id. -/
def Link.link_id (l : Link) : Val := l._link_id

/-- Link._parseResponse: mirror "nodes", "filters" and "suspend" from the
result when present, then emit updated_link_signal with this link's id. -/
def Link.parseResponse (l : Link) (result : Dict) : Link × List LinkEvent :=
  let l := match Dict.find? result "nodes" with
    | some v => { l with _nodes := v }
    | none => l
  let l := match Dict.find? result "filters" with
    | some v => { l with _filters := v }
    | none => l
  let l := match Dict.find? result "suspend" with
    | some v => { l with _suspend := v }
    | none => l
  (l, [LinkEvent.updatedLinkEmit l._id])

/-- Link._linkCreatedCallback in the non-error case: mark initialized, emit
add_link, wire both ports, adopt result["link_id"], then parse the rest of
the result. -/
def Link.linkCreatedCallback (l : Link) (result : Dict) : Except PyErr (Link × List LinkEvent) := do
  let l := { l with _initialized := true }
  let evs := [LinkEvent.addLinkEmit l._id, LinkEvent.wireSourcePort l._id,
              LinkEvent.wireDestinationPort l._id]
  let v ← dictItem result "link_id"
  let l := { l with _link_id := v }
  let (l', evs') := Link.parseResponse l result
  .ok (l', evs ++ evs')

/-- Link.__init__: one source node/port pair, one destination node/port pair.
`instance_count` plays the role of the class counter that provides the local
integer id, `fresh` is the uuid4 generated when the passed link_id is truthy,
and `link_data` are the **link_data keyword arguments. -/
def Link.init (instance_count : Nat) (fresh : String)
    (source_node : Node) (source_port : Port)
    (destination_node : Node) (destination_port : Port)
    (link_id : Val) (link_data : Dict) : Except PyErr (Link × List LinkEvent) := do
  let l : Link :=
    { _id := instance_count,
      _source_node := source_node, _source_port := source_port,
      _destination_node := destination_node, _destination_port := destination_port,
      _source_label := none, _destination_label := none,
      _link_id := link_id, _capturing := false, _initialized := true,
      _filters := Val.dict [], _suspend := Val.bool false,
      _creator := false, _nodes := Val.list [] }
  let evs₀ := [LinkEvent.addLinkOnSourceNode, LinkEvent.addLinkOnDestinationNode]
  let l := if l._link_id.truthy then { l with _link_id := Val.str fresh } else l
  let link_data := Dict.set link_data "link_id" l._link_id
  let (l', evs') ← Link.linkCreatedCallback l link_data
  .ok (l', evs₀ ++ evs')

/-- Link.__json__: link id plus one entry per endpoint (the source uses the
local integer node id, as the source code does). -/
def Link.json (l : Link) : Dict :=
  [("link_id", l._link_id),
   ("nodes", Val.list
     [Val.dict [("node_id", Val.num l._source_node.nid),
                ("adapter_number", l._source_port.adapter_number),
                ("port_number", l._source_port.port_number)],
      Val.dict [("node_id", Val.num l._destination_node.nid),
                ("adapter_number", l._destination_port.adapter_number),
                ("port_number", l._destination_port.port_number)]])]

/-- Link._prepareParams: the request body with one entry per endpoint, a label
added to an entry when the corresponding port has one, plus filters and
suspend. -/
def Link.prepareParams (l : Link) : Dict :=
  let n₀ : Dict := [("node_id", l._source_node._node_id),
                    ("adapter_number", l._source_port.adapter_number),
                    ("port_number", l._source_port.port_number)]
  let n₁ : Dict := [("node_id", l._destination_node._node_id),
                    ("adapter_number", l._destination_port.adapter_number),
                    ("port_number", l._destination_port.port_number)]
  let n₀ := match l._source_port.label with
    | some lb => Dict.set n₀ "label" lb
    | none => n₀
  let n₁ := match l._destination_port.label with
    | some lb => Dict.set n₁ "label" lb
    | none => n₁
  [("nodes", Val.list [Val.dict n₀, Val.dict n₁]),
   ("filters", l._filters),
   ("suspend", l._suspend)]

/-! ## Project (gns3/project.py) -/

/-- Observable effects of Project.open, in Python statement order. -/
inductive ProjEvent where
  | setProjectEv
  | addComputeEv (c : Val)
  | createNodeEv (nd : Val)
  | createLinkEv (ld : Val)
  | createDrawingEv (dd : Val)
  deriving Repr

/-- The fields of Project relevant to the verified operations.  The underscore
fields are the instance attributes the accessors read; `dyn` holds instance
attributes created later through `setattr` with computed names (Python keeps
both kinds in the instance `__dict__`; the computed names used in `open` all
lack the leading underscore, so the two groups never collide).  `_status` and
`_loading` are first assigned inside `open` itself. -/
structure Project where
  _auto_start : Val
  _auto_open : Val
  _auto_close : Val
  _scene_width : Val
  _scene_height : Val
  _zoom : Val
  _show_layers : Val
  _snap_to_grid : Val
  _show_grid : Val
  _show_interface_labels : Val
  _status : String
  _loading : Bool
  dyn : Dict
  deriving Repr

/-- Project.autoStart. -/
def Project.autoStart (p : Project) : Val := p._auto_start

/-- Project.autoClose. -/
def Project.autoClose (p : Project) : Val := p._auto_close

/-- Project.autoOpen. -/
def Project.autoOpen (p : Project) : Val := p._auto_open

/-- Project.sceneWidth. -/
def Project.sceneWidth (p : Project) : Val := p._scene_width

/-- Project.sceneHeight. -/
def Project.sceneHeight (p : Project) : Val := p._scene_height

/-- Project.zoom. -/
def Project.zoom (p : Project) : Val := p._zoom

/-- Project.showLayers. -/
def Project.showLayers (p : Project) : Val := p._show_layers

/-- Project.snapToGrid. -/
def Project.snapToGrid (p : Project) : Val := p._snap_to_grid

/-- Project.showGrid. -/
def Project.showGrid (p : Project) : Val := p._show_grid

/-- Project.showInterfaceLabels. -/
def Project.showInterfaceLabels (p : Project) : Val := p._show_interface_labels

/-- Project.__init__, with the resolved GraphicsView section settings passed in
(LocalConfig and gns3/settings.py are outside src/; the merged section is a
plain dict by the time the constructor reads it). -/
def Project.initial (graphic_settings : Dict) : Project :=
  { _auto_start := Val.bool false,
    _auto_open := Val.bool false,
    _auto_close := Val.bool false,
    _scene_width := Dict.getD graphic_settings "scene_width" Val.null,
    _scene_height := Dict.getD graphic_settings "scene_height" Val.null,
    _zoom := Dict.getD graphic_settings "zoom" Val.null,
    _show_layers := Dict.getD graphic_settings "show_layers" (Val.bool false),
    _snap_to_grid := Dict.getD graphic_settings "snap_to_grid" (Val.bool false),
    _show_grid := Dict.getD graphic_settings "show_grid" (Val.bool false),
    _show_interface_labels := Dict.getD graphic_settings "show_interface_labels" (Val.bool false),
    _status := "",
    _loading := false,
    dyn := [] }

/-- The keys_to_load list of Project.open. -/
def keysToLoad : List String :=
  ["auto_start", "auto_close", "auto_open", "scene_height", "scene_width",
   "zoom", "show_layers", "snap_to_grid", "show_grid", "show_interface_labels"]

/-- The meta-loading loop of Project.open:
`val = project_data.get(key, None); if val is not None: setattr(self, key, val)`.
`setattr(self, "auto_start", v)` creates/overwrites the instance attribute
named "auto_start" — not the attribute "_auto_start" that the accessors read —
so the values land in `dyn`. -/
def Project.loadMetaStep (pd : Dict) (p : Project) (key : String) : Project :=
  match Dict.getD pd key Val.null with
  | .null => p
  | v => { p with dyn := Dict.set p.dyn key v }

def Project.loadMeta (p : Project) (pd : Dict) : Project :=
  keysToLoad.foldl (Project.loadMetaStep pd) p

/-- The lookup `topology.get(key, [])` followed by iteration: a missing key iterates the
empty default, a list iterates its items, anything else fails on iteration. -/
def getIterable (d : Dict) (k : String) : Except PyErr (List Val) :=
  match Dict.find? d k with
  | none => .ok []
  | some (.list xs) => .ok xs
  | some _ => .error .typeError

/-- The link-reconciliation loop of Project.open: entries without a "link_id"
key are skipped, entries with one produce exactly one createLink; a non-dict
entry fails on `.keys()`. -/
def Project.processLinks : List Val → Except PyErr (List ProjEvent)
  | [] => .ok []
  | ld :: rest =>
    match ld with
    | .dict d =>
      if Dict.hasKey d "link_id" then do
        let evs ← Project.processLinks rest
        .ok (ProjEvent.createLinkEv (Val.dict d) :: evs)
      else Project.processLinks rest
    | _ => .error .attributeError

/-- Project.open, with the topology file content (`load_topology`'s parsed
JSON) passed in as `project_data`.  The opening status dance never returns
early (`_status` is assigned "closed" immediately before being compared to
"opened").  The compute loop calls `self.controller.add_compute`, but Project
has no attribute `controller`, so a non-empty computes list raises
AttributeError on its first iteration. -/
def Project.open (p : Project) (project_data : Val) : Except PyErr (Project × List ProjEvent) := do
  let p := { p with _status := "closed" }
  let p := { p with _loading := true, _status := "opened" }
  match project_data with
  | .dict pd =>
    let p := Project.loadMeta p pd
    match Dict.find? pd "topology" with
    | none => .error .keyError
    | some (.dict topology) => do
      let computes ← getIterable topology "computes"
      if computes.isEmpty then
        let nodes ← getIterable topology "nodes"
        let links ← getIterable topology "links"
        let linkEvs ← Project.processLinks links
        let drawings ← getIterable topology "drawings"
        .ok (p, [ProjEvent.setProjectEv] ++ nodes.map ProjEvent.createNodeEv ++ linkEvs
                ++ drawings.map ProjEvent.createDrawingEv)
      else .error .attributeError
    | some _ => .error .attributeError
  | _ => .error .attributeError

/-! ## Shared helper lemmas for the claim theorems -/

theorem Link.parseResponse_fst_id (l : Link) (r : Dict) :
    (Link.parseResponse l r).1._id = l._id := by
  unfold Link.parseResponse
  cases Dict.find? r "nodes" <;> cases Dict.find? r "filters" <;> cases Dict.find? r "suspend" <;> rfl

theorem Link.parseResponse_fst_link_id (l : Link) (r : Dict) :
    (Link.parseResponse l r).1._link_id = l._link_id := by
  unfold Link.parseResponse
  cases Dict.find? r "nodes" <;> cases Dict.find? r "filters" <;> cases Dict.find? r "suspend" <;> rfl

/-- Link.__init__ always completes (because the callback looks up the
"link_id" key that __init__ itself just stored), and the resulting link id is
the fresh uuid4 when the passed link_id is truthy, the passed value
otherwise. -/
theorem Link.init_ok (c : Nat) (fresh : String) (sn : Node) (sp : Port) (dn : Node) (dp : Port)
    (lid : Val) (ld : Dict) :
    ∃ l evs, Link.init c fresh sn sp dn dp lid ld = .ok (l, evs) ∧
      Link.link_id l = (if lid.truthy then Val.str fresh else lid) := by
  unfold Link.init Link.linkCreatedCallback
  by_cases h : lid.truthy
  · simp only [h, if_true]
    simp [dictItem, Dict.find?_set_self, bind, Except.bind, Link.link_id]
    rw [Link.parseResponse_fst_link_id]
  · simp only [h]
    simp [dictItem, Dict.find?_set_self, bind, Except.bind, Link.link_id, h]
    rw [Link.parseResponse_fst_link_id]

/-! ## Claim theorems -/

/-- C2: every Link has exactly two endpoints: it is built from one source
node/port pair and one destination node/port pair (the arguments of
`Link.init`), and in every link state both the serialization `Link.json`
(Link.__json__) and the request body `Link.prepareParams` (_prepareParams)
carry a "nodes" list of length exactly 2, one entry per endpoint. -/
theorem C2_link_always_two_endpoints (l : Link) :
    (∃ ns, Dict.find? (Link.json l) "nodes" = some (Val.list ns) ∧ ns.length = 2) ∧
    (∃ ns, Dict.find? (Link.prepareParams l) "nodes" = some (Val.list ns) ∧ ns.length = 2) := by
  constructor
  · exact ⟨_, rfl, rfl⟩
  · unfold Link.prepareParams
    cases l._source_port.label <;> cases l._destination_port.label <;> exact ⟨_, rfl, rfl⟩

/-- C3: Controller.getStaticCachedPath returns the cache directory joined with
the MD5 hex digest of the UTF-8 encoding of the URL, extended ".svg" when
".svg" occurs in the URL and ".png" otherwise (the spec-worded
`spec_staticCachedPath`); the path is a deterministic function of the URL, so
equal URLs give equal paths. -/
theorem C3_static_cached_path_md5_deterministic (cache_directory url : String) :
    Controller.getStaticCachedPath cache_directory url
      = spec_staticCachedPath cache_directory url ∧
    ∀ url', url' = url →
      Controller.getStaticCachedPath cache_directory url'
        = Controller.getStaticCachedPath cache_directory url :=
  ⟨rfl, fun _ h => by rw [h]⟩

theorem C3_static_cached_path_md5_deterministic_witness :
    Controller.getStaticCachedPath "/tmp/cache" ":/symbols/ethernet_switch.svg"
      = spec_staticCachedPath "/tmp/cache" ":/symbols/ethernet_switch.svg" ∧
    Controller.getStaticCachedPath "/tmp/cache" ":/symbols/ethernet_switch.svg"
      = "/tmp/cache/1579991b42c18e55105512fbca5375af.svg" ∧
    Controller.getStaticCachedPath "/tmp/cache" (":/symbols/ethernet_switch" ++ ".svg")
      = Controller.getStaticCachedPath "/tmp/cache" ":/symbols/ethernet_switch.svg" :=
  ⟨(C3_static_cached_path_md5_deterministic "/tmp/cache" ":/symbols/ethernet_switch.svg").1,
   by decide,
   (C3_static_cached_path_md5_deterministic "/tmp/cache" ":/symbols/ethernet_switch.svg").2
     (":/symbols/ethernet_switch" ++ ".svg") (by decide)⟩

/-- C4: on an error reply to GET /version, Controller._versionGetSlot
schedules exactly one retry, always with the fixed 5000 ms delay (no backoff),
and emits connection_failed_signal exactly when _first_error was set; after
any error _first_error is false, so the signal fires only on the first error
of a failure streak. -/
theorem C4_version_error_single_fixed_retry (s : ControllerState) (result : Dict) :
    ((Controller.versionGetSlot s result true).2.filter CtrlEvent.isRetry
      = [CtrlEvent.scheduleVersionRetry 5000 s._first_error]) ∧
    (CtrlEvent.connectionFailedEmit ∈ (Controller.versionGetSlot s result true).2
      ↔ s._first_error = true) ∧
    (Controller.versionGetSlot s result true).1._first_error = false := by
  unfold Controller.versionGetSlot
  by_cases h1 : s._first_error <;>
    by_cases h2 : (Dict.hasKey result "message" && s._display_error) = true <;>
      simp [h1, h2, CtrlEvent.isRetry, List.filter]

theorem C4_version_error_single_fixed_retry_witness :
    CtrlEvent.connectionFailedEmit ∈
      (Controller.versionGetSlot ⟨true, true, true, true, false⟩ [] true).2 :=
  (C4_version_error_single_fixed_retry ⟨true, true, true, true, false⟩ []).2.1.mpr rfl

/-- C8: Link._parseResponse mirrors any "nodes", "filters" and "suspend"
entries of the result into the link state and always follows with exactly one
updated_link_signal emission carrying this link's integer id, also when the
result contains none of these keys. -/
theorem C8_parse_response_always_notifies (l : Link) (result : Dict) :
    (Link.parseResponse l result).2 = [LinkEvent.updatedLinkEmit l._id] ∧
    (Link.parseResponse l result).1._nodes =
      (match Dict.find? result "nodes" with | some v => v | none => l._nodes) ∧
    (Link.parseResponse l result).1._filters =
      (match Dict.find? result "filters" with | some v => v | none => l._filters) ∧
    (Link.parseResponse l result).1._suspend =
      (match Dict.find? result "suspend" with | some v => v | none => l._suspend) := by
  unfold Link.parseResponse
  cases Dict.find? result "nodes" <;> cases Dict.find? result "filters" <;>
    cases Dict.find? result "suspend" <;> exact ⟨rfl, rfl, rfl, rfl⟩

/-- A concrete node for witness evaluations. -/
def sampleNode : Node :=
  { nid := 1, _node_id := Val.str "11111111-2222-3333-4444-555555555555",
    _node_directory := Val.null, _command_line := Val.null,
    _settings := [("name", Val.str "PC1"), ("x", Val.null), ("y", Val.null),
                  ("z", Val.num 1), ("label", Val.dict [("text", Val.str "text")])],
    _ports := [], _status := NodeStatus.created }

/-- A concrete port for witness evaluations. -/
def samplePort : Port := Port.mkNew PortKind.ethernet (Val.str "Ethernet0")

/-- C10: constructing a Link with a non-None, non-empty link_id argument does
not retain it — afterwards link_id() is the freshly generated uuid4 string,
not the provided value — while constructing with link_id=None leaves link_id()
equal to None. -/
theorem C10_passed_link_id_replaced_by_fresh_uuid (c : Nat) (fresh : String)
    (sn : Node) (sp : Port) (dn : Node) (dp : Port) (s : String) (ld : Dict)
    (hs : s ≠ "") (hne : fresh ≠ s) :
    (∃ l evs, Link.init c fresh sn sp dn dp (Val.str s) ld = .ok (l, evs) ∧
       Link.link_id l = Val.str fresh ∧ Link.link_id l ≠ Val.str s) ∧
    (∃ l evs, Link.init c fresh sn sp dn dp Val.null ld = .ok (l, evs) ∧
       Link.link_id l = Val.null) := by
  constructor
  · obtain ⟨l, evs, hok, hid⟩ := Link.init_ok c fresh sn sp dn dp (Val.str s) ld
    have hid' : Link.link_id l = Val.str fresh := by
      simpa [Val.truthy, hs] using hid
    refine ⟨l, evs, hok, hid', ?_⟩
    rw [hid']
    intro hcontra
    exact hne (by injection hcontra)
  · obtain ⟨l, evs, hok, hid⟩ := Link.init_ok c fresh sn sp dn dp Val.null ld
    exact ⟨l, evs, hok, by simpa [Val.truthy] using hid⟩

theorem C10_passed_link_id_replaced_by_fresh_uuid_witness :
    ∃ l evs, Link.init 1 "u-fresh" sampleNode samplePort sampleNode samplePort
        (Val.str "66666666-7777-8888-9999-000000000000") [] = .ok (l, evs) ∧
      Link.link_id l = Val.str "u-fresh" ∧
      Link.link_id l ≠ Val.str "66666666-7777-8888-9999-000000000000" :=
  (C10_passed_link_id_replaced_by_fresh_uuid 1 "u-fresh" sampleNode samplePort
    sampleNode samplePort "66666666-7777-8888-9999-000000000000" []
    (by decide) (by decide)).1

/-- The tuple of all ten meta accessors of a project (autoStart, autoClose,
autoOpen, sceneHeight, sceneWidth, zoom, showLayers, snapToGrid, showGrid,
showInterfaceLabels). -/
def Project.metaAccessors (p : Project) :=
  (Project.autoStart p, Project.autoClose p, Project.autoOpen p,
   Project.sceneHeight p, Project.sceneWidth p, Project.zoom p,
   Project.showLayers p, Project.snapToGrid p, Project.showGrid p,
   Project.showInterfaceLabels p)

theorem Project.loadMetaStep_metaAccessors (pd : Dict) (p : Project) (key : String) :
    Project.metaAccessors (Project.loadMetaStep pd p key) = Project.metaAccessors p := by
  unfold Project.loadMetaStep
  cases Dict.getD pd key Val.null <;> rfl

theorem Project.loadMeta_metaAccessors_aux (pd : Dict) :
    ∀ keys p, Project.metaAccessors (List.foldl (Project.loadMetaStep pd) p keys)
      = Project.metaAccessors p
  | [], _ => rfl
  | key :: rest, p => by
    rw [List.foldl_cons, Project.loadMeta_metaAccessors_aux pd rest,
        Project.loadMetaStep_metaAccessors]

/-- C1 (code bug): the meta values of an opened topology file never reach the
accessors.  `setattr(self, "auto_start", val)` creates a fresh instance
attribute instead of the "_auto_start" attribute that autoStart() returns, so
after open() the accessor still reports the pre-open value (here: False
although the file stores auto_start=True, the loaded value sitting unread in
the instance dict), and in general the meta-loading loop leaves all ten
accessors unchanged for every project and every topology file. -/
theorem C1_open_meta_never_reaches_accessors :
    (Project.open (Project.initial [])
        (Val.dict [("auto_start", Val.bool true), ("topology", Val.dict [])])).map
      (fun pe => (Project.autoStart pe.1, Dict.find? pe.1.dyn "auto_start"))
      = Except.ok (Val.bool false, some (Val.bool true)) ∧
    ∀ p pd, Project.metaAccessors (Project.loadMeta p pd) = Project.metaAccessors p :=
  ⟨rfl, fun p pd => Project.loadMeta_metaAccessors_aux pd keysToLoad p⟩

theorem applianceStripId_hasKey_self (d : Dict) :
    Dict.hasKey (applianceStripId d) "appliance_id" = false := by
  unfold applianceStripId
  cases h : Dict.hasKey d "appliance_id" with
  | false => simp [h]
  | true => simp [Dict.hasKey_erase_self]

theorem applianceStripId_hasKey_ne (d : Dict) {k : String} (h : k ≠ "appliance_id") :
    Dict.hasKey (applianceStripId d) k = Dict.hasKey d k := by
  unfold applianceStripId
  cases hh : Dict.hasKey d "appliance_id" <;>
    simp [Dict.hasKey_erase_ne d (Ne.symm h)]

theorem applianceStripId_find?_ne (d : Dict) {k : String} (h : k ≠ "appliance_id") :
    Dict.find? (applianceStripId d) k = Dict.find? d k := by
  unfold applianceStripId
  cases hh : Dict.hasKey d "appliance_id" <;>
    simp [Dict.find?_erase_ne d (Ne.symm h)]

theorem applianceMigrate_hasKey_linked_base (d : Dict) :
    Dict.hasKey (applianceMigrateLinkedBase d) "linked_base" = false := by
  unfold applianceMigrateLinkedBase
  cases hb : Dict.hasKey d "linked_base" with
  | false => simp [hb]
  | true =>
    simp only [hb, if_true]
    cases hc : Dict.hasKey (Dict.erase d "linked_base") "linked_clone" with
    | true => simp [hc, Dict.hasKey_erase_self]
    | false => simp [hc, Dict.hasKey_set, Dict.hasKey_erase_self]

theorem applianceMigrate_hasKey_ne (d : Dict) {k : String}
    (h1 : k ≠ "linked_base") (h2 : k ≠ "linked_clone") :
    Dict.hasKey (applianceMigrateLinkedBase d) k = Dict.hasKey d k := by
  unfold applianceMigrateLinkedBase
  cases hb : Dict.hasKey d "linked_base" with
  | false => simp [hb]
  | true =>
    simp only [hb, if_true]
    cases hc : Dict.hasKey (Dict.erase d "linked_base") "linked_clone" with
    | true => simp [hc, Dict.hasKey_erase_ne d (Ne.symm h1)]
    | false => simp [hc, Dict.hasKey_set, Ne.symm h2, Dict.hasKey_erase_ne d (Ne.symm h1)]

theorem applianceMigrate_find?_ne (d : Dict) {k : String}
    (h1 : k ≠ "linked_base") (h2 : k ≠ "linked_clone") :
    Dict.find? (applianceMigrateLinkedBase d) k = Dict.find? d k := by
  unfold applianceMigrateLinkedBase
  cases hb : Dict.hasKey d "linked_base" with
  | false => simp [hb]
  | true =>
    simp only [hb, if_true]
    cases hc : Dict.hasKey (Dict.erase d "linked_base") "linked_clone" with
    | true => simp [hc, Dict.find?_erase_ne d (Ne.symm h1)]
    | false => simp [hc, Dict.find?_set_ne _ _ (Ne.symm h2), Dict.find?_erase_ne d (Ne.symm h1)]

theorem applianceMigrate_linked_clone_present (d : Dict)
    (hc : Dict.hasKey d "linked_clone" = true) :
    Dict.find? (applianceMigrateLinkedBase d) "linked_clone"
      = Dict.find? d "linked_clone" := by
  unfold applianceMigrateLinkedBase
  cases hb : Dict.hasKey d "linked_base" with
  | false => simp [hb]
  | true =>
    have hc' : Dict.hasKey (Dict.erase d "linked_base") "linked_clone" = true := by
      rw [Dict.hasKey_erase_ne d (by decide)]; exact hc
    simp [hb, hc', Dict.find?_erase_ne d (by decide : ("linked_base" : String) ≠ "linked_clone")]

theorem applianceMigrate_linked_clone_absent (d : Dict)
    (hb : Dict.hasKey d "linked_base" = true)
    (hc : Dict.hasKey d "linked_clone" = false) :
    Dict.find? (applianceMigrateLinkedBase d) "linked_clone"
      = Dict.find? d "linked_base" := by
  unfold applianceMigrateLinkedBase
  have hc' : Dict.hasKey (Dict.erase d "linked_base") "linked_clone" = false := by
    rw [Dict.hasKey_erase_ne d (by decide)]; exact hc
  obtain ⟨v, hv⟩ := Dict.exists_find?_of_hasKey hb
  simp [hb, hc', Dict.find?_set_self, Dict.getD, hv]

/-- C5: the stored appliance data never contains "appliance_id" or
"linked_base"; a legacy "linked_base" is migrated to "linked_clone" when
"linked_clone" is absent, and an existing "linked_clone" is kept unchanged. -/
theorem C5_appliance_data_never_keeps_legacy_keys (appliance_id : Val) (fresh : String)
    (data : Dict) (builtin : Bool) (a : Appliance)
    (h : Appliance.init appliance_id fresh data builtin = .ok a) :
    Dict.hasKey a._data "appliance_id" = false ∧
    Dict.hasKey a._data "linked_base" = false ∧
    (Dict.hasKey data "linked_base" = true → Dict.hasKey data "linked_clone" = false →
      Dict.find? a._data "linked_clone" = Dict.find? data "linked_base") ∧
    (Dict.hasKey data "linked_clone" = true →
      Dict.find? a._data "linked_clone" = Dict.find? data "linked_clone") := by
  simp only [Appliance.init] at h
  cases hnt : Dict.find? data "node_type" with
  | none => rw [hnt] at h; cases h
  | some nt =>
    rw [hnt] at h
    simp only [Except.ok.injEq] at h
    subst h
    simp only []
    have f1 : Dict.hasKey (applianceMigrateLinkedBase (applianceStripId data)) "appliance_id" = false := by
      rw [applianceMigrate_hasKey_ne _ (by decide) (by decide), applianceStripId_hasKey_self]
    have f2 : Dict.hasKey (applianceMigrateLinkedBase (applianceStripId data)) "linked_base" = false :=
      applianceMigrate_hasKey_linked_base _
    have f3 : Dict.hasKey data "linked_base" = true → Dict.hasKey data "linked_clone" = false →
        Dict.find? (applianceMigrateLinkedBase (applianceStripId data)) "linked_clone"
          = Dict.find? data "linked_base" := by
      intro hb hc
      rw [applianceMigrate_linked_clone_absent _
            (by rw [applianceStripId_hasKey_ne _ (by decide)]; exact hb)
            (by rw [applianceStripId_hasKey_ne _ (by decide)]; exact hc),
          applianceStripId_find?_ne _ (by decide)]
    have f4 : Dict.hasKey data "linked_clone" = true →
        Dict.find? (applianceMigrateLinkedBase (applianceStripId data)) "linked_clone"
          = Dict.find? data "linked_clone" := by
      intro hc
      rw [applianceMigrate_linked_clone_present _
            (by rw [applianceStripId_hasKey_ne _ (by decide)]; exact hc),
          applianceStripId_find?_ne _ (by decide)]
    cases him : (Val.beq nt (Val.str "iou") && Dict.hasKey data "image") with
    | false => simp only [him, if_false, Bool.false_eq_true]; exact ⟨f1, f2, f3, f4⟩
    | true =>
      simp only [him, if_true]
      refine ⟨?_, ?_, ?_, ?_⟩
      · rw [Dict.hasKey_erase_ne _ (by decide)]; exact f1
      · rw [Dict.hasKey_erase_ne _ (by decide)]; exact f2
      · intro hb hc
        rw [Dict.find?_erase_ne _ (by decide)]; exact f3 hb hc
      · intro hc
        rw [Dict.find?_erase_ne _ (by decide)]; exact f4 hc

theorem C5_appliance_data_never_keeps_legacy_keys_witness :
    ∃ a, Appliance.init (Val.str "id-1") ""
        [("node_type", Val.str "qemu"), ("name", Val.str "vm1"),
         ("appliance_id", Val.str "id-1"), ("linked_base", Val.bool true)] false = .ok a ∧
      Dict.hasKey a._data "appliance_id" = false ∧
      Dict.hasKey a._data "linked_base" = false ∧
      Dict.find? a._data "linked_clone" = some (Val.bool true) := by
  refine ⟨_, rfl, ?_⟩
  have h := C5_appliance_data_never_keeps_legacy_keys (Val.str "id-1") ""
    [("node_type", Val.str "qemu"), ("name", Val.str "vm1"),
     ("appliance_id", Val.str "id-1"), ("linked_base", Val.bool true)] false _ rfl
  exact ⟨h.1, h.2.1, by rw [h.2.2.1 (by decide) (by decide)]; rfl⟩

/-- Does a topology link entry carry a "link_id" key? -/
def linkEntryHasId (l : Val) : Bool :=
  match l with
  | .dict d => Dict.hasKey d "link_id"
  | _ => false

theorem Project.processLinks_all_dicts (ls : List Val)
    (h : ∀ l ∈ ls, ∃ d, l = Val.dict d) :
    Project.processLinks ls = .ok ((ls.filter linkEntryHasId).map ProjEvent.createLinkEv) := by
  induction ls with
  | nil => rfl
  | cons x rest ih =>
    obtain ⟨d, rfl⟩ := h x (by simp)
    have ih' := ih (fun l hl => h l (by simp [hl]))
    unfold Project.processLinks
    cases hid : Dict.hasKey d "link_id" with
    | true => simp [hid, ih', linkEntryHasId, bind, Except.bind, List.filter_cons]
    | false => simp [hid, ih', linkEntryHasId, List.filter_cons]

/-- C6: in the link reconciliation of Project.open, every link entry without a
"link_id" key is skipped — no exception, no createLink — and loading continues
with the remaining link entries and the drawings, while every entry with a
"link_id" produces exactly one createLink. -/
theorem C6_links_without_id_skipped (p : Project) (pd topology : Dict)
    (links drawings : List Val)
    (htopo : Dict.find? pd "topology" = some (Val.dict topology))
    (hcomp : Dict.find? topology "computes" = none)
    (hnodes : Dict.find? topology "nodes" = none)
    (hlinks : Dict.find? topology "links" = some (Val.list links))
    (hdicts : ∀ l ∈ links, ∃ d, l = Val.dict d)
    (hdraw : Dict.find? topology "drawings" = some (Val.list drawings)) :
    ∃ p', Project.open p (Val.dict pd) = .ok (p',
      [ProjEvent.setProjectEv]
        ++ (links.filter linkEntryHasId).map ProjEvent.createLinkEv
        ++ drawings.map ProjEvent.createDrawingEv) := by
  have hpl := Project.processLinks_all_dicts links hdicts
  simp only [Project.open, htopo, getIterable, hcomp, hnodes, hlinks, hdraw, hpl, bind,
    Except.bind, List.isEmpty_nil, if_true, List.map_nil, List.nil_append, List.map]
  exact ⟨_, rfl⟩

theorem C6_links_without_id_skipped_witness :
    ∃ p', Project.open (Project.initial []) (Val.dict [("topology", Val.dict
        [("links", Val.list [Val.dict [("foo", Val.null)], Val.dict [("link_id", Val.str "L1")]]),
         ("drawings", Val.list [Val.str "d0"])])]) = .ok (p',
      [ProjEvent.setProjectEv,
       ProjEvent.createLinkEv (Val.dict [("link_id", Val.str "L1")]),
       ProjEvent.createDrawingEv (Val.str "d0")]) := by
  have h := C6_links_without_id_skipped (Project.initial [])
    [("topology", Val.dict
        [("links", Val.list [Val.dict [("foo", Val.null)], Val.dict [("link_id", Val.str "L1")]]),
         ("drawings", Val.list [Val.str "d0"])])]
    [("links", Val.list [Val.dict [("foo", Val.null)], Val.dict [("link_id", Val.str "L1")]]),
     ("drawings", Val.list [Val.str "d0"])]
    [Val.dict [("foo", Val.null)], Val.dict [("link_id", Val.str "L1")]]
    [Val.str "d0"]
    rfl rfl rfl rfl
    (by intro l hl; simp at hl; rcases hl with rfl | rfl
        · exact ⟨_, rfl⟩
        · exact ⟨_, rfl⟩)
    rfl
  simpa using h

/-- Inputs for the C9 evaluation: a healthy manager whose store is a dict, an
empty settings file content, and a uuid4 supply. -/
def c9Manager : ApplianceManager := { _appliance_templates := [], _appliances := Store.sdict [] }

def c9Conf : Val := Val.dict [("settings", Val.dict [])]

def c9Fresh : Nat → String := fun n => "uuid-" ++ toString n

/-- C9 (code bug): after a controller disconnect the appliance store is NOT an
empty mapping but a plain empty Python list, so the store is no longer a
mapping and the next load_appliances (run by refresh, e.g. on reconnect)
raises TypeError when it assigns the builtin switch record; on the healthy
dict path load_appliances does maintain the claimed shape, every stored
record's "appliance_id" equalling its key. -/
theorem C9_disconnect_store_is_list_not_mapping :
    (ApplianceManager.controllerDisconnectedSlot c9Manager).1._appliances = Store.slist [] ∧
    ApplianceManager.load_appliances (ApplianceManager.controllerDisconnectedSlot c9Manager).1
      c9Conf c9Fresh = .error PyErr.typeError ∧
    (∃ d, (ApplianceManager.load_appliances c9Manager c9Conf c9Fresh).map
        (fun m => m._appliances) = .ok (Store.sdict d) ∧
      d.all (fun kv => match kv.2 with
        | .dict r => Val.beq (Dict.getD r "appliance_id" Val.null) kv.1
        | _ => false) = true) :=
  ⟨rfl, rfl, ⟨_, rfl, rfl⟩⟩

/-- The sequential scalar block of _parseResponse written as one record
update (each statement reads a different result key, so the composition is
this simultaneous update; the 32-way case analysis below checks that). -/
theorem Node.updateScalars_eq (n : Node) (result : Dict) :
    Node.updateScalars n result =
      { n with
        _node_id := match Dict.find? result "node_id" with
          | some v => v
          | none => n._node_id,
        _settings := match Dict.find? result "name" with
          | some v => Dict.set n._settings "name" v
          | none => n._settings,
        _command_line := match Dict.find? result "command_line" with
          | some v => v
          | none => n._command_line,
        _node_directory := match Dict.find? result "node_directory" with
          | some v => v
          | none => n._node_directory,
        _status := match Dict.find? result "status" with
          | some v =>
            if Val.beq v (Val.str "started") then NodeStatus.started
            else if Val.beq v (Val.str "stopped") then NodeStatus.stopped
            else if Val.beq v (Val.str "suspended") then NodeStatus.suspended
            else n._status
          | none => n._status } := by
  unfold Node.updateScalars Node.setName Node.setStatus
  cases Dict.find? result "node_id" <;> cases Dict.find? result "name" <;>
    cases Dict.find? result "command_line" <;> cases Dict.find? result "node_directory" <;>
    cases Dict.find? result "status" <;>
    dsimp only <;>
    first
      | rfl
      | (split_ifs <;> rfl)

theorem Node.updateScalars_ports (n : Node) (result : Dict) :
    (Node.updateScalars n result)._ports = n._ports := by
  rw [Node.updateScalars_eq]

theorem Node.updateScalars_settings_frame (n : Node) (result : Dict) (k : String)
    (h : Dict.hasKey result k = false) :
    Dict.find? (Node.updateScalars n result)._settings k = Dict.find? n._settings k := by
  rw [Node.updateScalars_eq]
  cases hname : Dict.find? result "name" with
  | none => rfl
  | some v =>
    have hne : ("name" : String) ≠ k := by
      intro he
      rw [he, Dict.find?_eq_none_of_hasKey_eq_false h] at hname
      cases hname
    exact Dict.find?_set_ne _ _ hne

/-- The frame facts for Node._updatePorts: it only touches the port list and
the "ports" settings key. -/
theorem Node.updatePorts_ok_frame (n : Node) (ports : List Val) (n₂ : Node)
    (h : Node.updatePorts n ports = .ok n₂) :
    n₂._node_id = n._node_id ∧ n₂._command_line = n._command_line ∧
    n₂._node_directory = n._node_directory ∧ n₂._status = n._status ∧
    ∀ k, k ≠ "ports" → Dict.find? n₂._settings k = Dict.find? n._settings k := by
  unfold Node.updatePorts at h
  dsimp only at h
  cases hgo : updatePortsGo n._status n._ports [] ports with
  | error e => rw [hgo] at h; simp [bind, Except.bind] at h
  | ok nps =>
    rw [hgo] at h
    simp only [bind, Except.bind, Except.ok.injEq] at h
    subst h
    refine ⟨rfl, rfl, rfl, rfl, fun k hk => ?_⟩
    exact Dict.find?_set_ne _ _ (Ne.symm hk)

/-- Is this key present inside result["properties"] (when that is a dict)? -/
def propsHasKey (result : Dict) (k : String) : Bool :=
  match Dict.find? result "properties" with
  | some (.dict props) => Dict.hasKey props k
  | _ => false

theorem applyProps_frame (props : Dict) (st : Dict) (k : String)
    (h : Dict.hasKey props k = false) :
    Dict.find? (applyProps props st) k = Dict.find? st k := by
  induction props generalizing st with
  | nil => rfl
  | cons p rest ih =>
    obtain ⟨name, value⟩ := p
    simp only [Dict.hasKey, Bool.or_eq_false_iff, beq_eq_false_iff_ne, ne_eq] at h
    unfold applyProps
    rw [ih _ h.2]
    by_cases hcond : (Dict.hasKey st name && !Val.beq (Dict.getD st name Val.null) value) = true
    · simp only [hcond, if_true]
      exact Dict.find?_set_ne _ _ h.1
    · simp only [Bool.eq_false_iff.mpr hcond, Bool.false_eq_true, if_false]

theorem applyCommonKeys_frame (keys : List String) (st res : Dict) (k : String)
    (h : Dict.hasKey res k = false) :
    Dict.find? (applyCommonKeys keys st res) k = Dict.find? st k := by
  induction keys generalizing st with
  | nil => rfl
  | cons key rest ih =>
    unfold applyCommonKeys
    cases hk : Dict.find? res key with
    | none => exact ih st
    | some v =>
      have hne : key ≠ k := by
        intro he
        rw [he, Dict.find?_eq_none_of_hasKey_eq_false h] at hk
        cases hk
      rw [ih (Dict.set st key v), Dict.find?_set_ne _ _ hne]

/-- The frame facts for the properties/common-keys tail of _parseResponse. -/
theorem Node.parseFinish_ok_frame (n : Node) (result : Dict) (n' : Node) (result' : Dict)
    (h : Node.parseFinish n result = .ok (n', result')) :
    n'._node_id = n._node_id ∧ n'._command_line = n._command_line ∧
    n'._node_directory = n._node_directory ∧ n'._status = n._status ∧
    n'._ports = n._ports ∧
    (∀ k, Dict.hasKey result k = false → propsHasKey result k = false →
      Dict.find? n'._settings k = Dict.find? n._settings k) := by
  unfold Node.parseFinish at h
  cases hp : Dict.find? result "properties" with
  | none =>
    rw [hp] at h
    simp only [Except.ok.injEq, Prod.mk.injEq] at h
    obtain ⟨hn, hr⟩ := h
    subst hn
    subst hr
    refine ⟨rfl, rfl, rfl, rfl, rfl, fun k hk _ => ?_⟩
    exact applyCommonKeys_frame _ _ _ _ hk
  | some v =>
    rw [hp] at h
    cases v with
    | null => exact Except.noConfusion h
    | bool b => exact Except.noConfusion h
    | num m => exact Except.noConfusion h
    | str s => exact Except.noConfusion h
    | list xs => exact Except.noConfusion h
    | dict props =>
      dsimp only at h
      simp only [Except.ok.injEq, Prod.mk.injEq] at h
      obtain ⟨hn, hr⟩ := h
      subst hn
      subst hr
      refine ⟨rfl, rfl, rfl, rfl, rfl, fun k hk hpk => ?_⟩
      have hprops : Dict.hasKey props k = false := by
        unfold propsHasKey at hpk
        rw [hp] at hpk
        exact hpk
      have hres' : Dict.hasKey (Dict.erase (Dict.update result props) "properties") k = false := by
        by_cases hkp : k = "properties"
        · rw [hkp]
          exact Dict.hasKey_erase_self _ _
        · rw [Dict.hasKey_erase_ne _ (fun he => hkp he.symm), Dict.hasKey_update, hk, hprops]
          rfl
      rw [applyCommonKeys_frame _ _ _ _ hres', applyProps_frame _ _ _ hprops]

/-- C7: Node._parseResponse updates only fields named in the server result —
every mirrored field whose key is absent from the top level, and every
settings key present neither at the top level nor inside
result["properties"], keeps its previous value. -/
theorem C7_parse_response_updates_only_named_fields (n : Node) (result : Dict)
    (n' : Node) (result' : Dict)
    (h : Node.parseResponse n result = .ok (n', result')) :
    (Dict.hasKey result "node_id" = false → n'._node_id = n._node_id) ∧
    (Dict.hasKey result "command_line" = false → n'._command_line = n._command_line) ∧
    (Dict.hasKey result "node_directory" = false → n'._node_directory = n._node_directory) ∧
    (Dict.hasKey result "status" = false → n'._status = n._status) ∧
    (Dict.hasKey result "ports" = false → n'._ports = n._ports) ∧
    (∀ k, Dict.hasKey result k = false → propsHasKey result k = false →
      Dict.find? n'._settings k = Dict.find? n._settings k) := by
  unfold Node.parseResponse at h
  dsimp only at h
  cases hports : Dict.find? result "ports" with
  | none =>
    rw [hports] at h
    have hf := Node.parseFinish_ok_frame _ _ _ _ h
    refine ⟨fun hk => ?_, fun hk => ?_, fun hk => ?_, fun hk => ?_, fun _ => ?_,
      fun k hk hpk => ?_⟩
    · rw [hf.1, Node.updateScalars_eq]
      dsimp only
      rw [Dict.find?_eq_none_of_hasKey_eq_false hk]
    · rw [hf.2.1, Node.updateScalars_eq]
      dsimp only
      rw [Dict.find?_eq_none_of_hasKey_eq_false hk]
    · rw [hf.2.2.1, Node.updateScalars_eq]
      dsimp only
      rw [Dict.find?_eq_none_of_hasKey_eq_false hk]
    · rw [hf.2.2.2.1, Node.updateScalars_eq]
      dsimp only
      rw [Dict.find?_eq_none_of_hasKey_eq_false hk]
    · rw [hf.2.2.2.2.1, Node.updateScalars_ports]
    · rw [hf.2.2.2.2.2 k hk hpk]
      exact Node.updateScalars_settings_frame _ _ _ hk
  | some v =>
    rw [hports] at h
    cases v with
    | null => exact Except.noConfusion h
    | bool b => exact Except.noConfusion h
    | num m => exact Except.noConfusion h
    | str s => exact Except.noConfusion h
    | dict d => exact Except.noConfusion h
    | list ports =>
      dsimp only at h
      cases hup : Node.updatePorts (Node.updateScalars n result) ports with
      | error e => rw [hup] at h; exact Except.noConfusion h
      | ok n₂ =>
        rw [hup] at h
        have hu := Node.updatePorts_ok_frame _ _ _ hup
        have hf := Node.parseFinish_ok_frame _ _ _ _ h
        refine ⟨fun hk => ?_, fun hk => ?_, fun hk => ?_, fun hk => ?_, fun hk => ?_,
          fun k hk hpk => ?_⟩
        · rw [hf.1, hu.1, Node.updateScalars_eq]
          dsimp only
          rw [Dict.find?_eq_none_of_hasKey_eq_false hk]
        · rw [hf.2.1, hu.2.1, Node.updateScalars_eq]
          dsimp only
          rw [Dict.find?_eq_none_of_hasKey_eq_false hk]
        · rw [hf.2.2.1, hu.2.2.1, Node.updateScalars_eq]
          dsimp only
          rw [Dict.find?_eq_none_of_hasKey_eq_false hk]
        · rw [hf.2.2.2.1, hu.2.2.2.1, Node.updateScalars_eq]
          dsimp only
          rw [Dict.find?_eq_none_of_hasKey_eq_false hk]
        · rw [Dict.find?_eq_none_of_hasKey_eq_false hk] at hports
          exact Option.noConfusion hports
        · have hkp : k ≠ "ports" := by
            intro he
            rw [he] at hk
            rw [Dict.find?_eq_none_of_hasKey_eq_false hk] at hports
            cases hports
          rw [hf.2.2.2.2.2 k hk hpk, hu.2.2.2.2 k hkp]
          exact Node.updateScalars_settings_frame _ _ _ hk

/-- A server result for the C7 evaluation: command_line at top level, ram
inside properties; node_id and name appear in neither place. -/
def c7Result : Dict :=
  [("command_line", Val.str "run"), ("properties", Val.dict [("ram", Val.num 256)])]

theorem C7_parse_response_updates_only_named_fields_witness :
    ∃ n' result', Node.parseResponse sampleNode c7Result = .ok (n', result') ∧
      n'._node_id = sampleNode._node_id ∧
      Dict.find? n'._settings "name" = Dict.find? sampleNode._settings "name" := by
  obtain ⟨n', result', hok⟩ :
      ∃ n' result', Node.parseResponse sampleNode c7Result = .ok (n', result') := ⟨_, _, rfl⟩
  have h := C7_parse_response_updates_only_named_fields _ _ _ _ hok
  exact ⟨n', result', hok, h.1 (by decide), h.2.2.2.2.2 "name" (by decide) (by decide)⟩
